import Mathlib

/-!
Shallow embedding of the States-of-Matter simulation core
(src/components/SimulationCanvas.tsx, src/types.ts).

Rational-valued state models the exact arithmetic of the particle
integrator, fill smoothing, hit testing and the descriptor-change
effect; the circular (BOWL) boundary and the bowl liquid-surface
computation, which use Math.sqrt, are modelled over the reals.
-/

namespace StatesOfMatter

/-- Matter states a vessel can hold (src/types.ts `MatterState`). -/
inductive MatterState
  | EMPTY
  | SOLID
  | LIQUID
  | GAS
deriving DecidableEq, Repr

/-- Gas particle (src/types.ts `Particle`), parametrised by the number
type so the RECT model can be exact rationals and the CIRCLE model reals. -/
structure Particle (α : Type) where
  x : α
  y : α
  vx : α
  vy : α
  radius : α
  color : String
deriving DecidableEq, Repr

/-- The fixed four-token gas palette (`COLORS.gasParticles`). -/
def gasParticles : List String :=
  ["#ef4444", "#f59e0b", "#10b981", "#8b5cf6"]

/-- One low-wall clamp of `updateParticles`
(`if (p.x < lo) { p.x = lo; p.vx *= -1; }`), returning the updated
coordinate and velocity component. -/
def clampLow (x v lo : ℚ) : ℚ × ℚ :=
  if x < lo then (lo, -v) else (x, v)

/-- One high-wall clamp of `updateParticles`
(`if (p.x > hi) { p.x = hi; p.vx *= -1; }`), reading the coordinate and
velocity component left by the preceding low clamp. -/
def clampHigh (x v hi : ℚ) : ℚ × ℚ :=
  if x > hi then (hi, -v) else (x, v)

/-- One tick of `updateParticles` for one particle in a RECT confinement
with origin `(bx, byc)`, width `bw`, height `bh`: Euler integration,
then the origin-sentinel check, then the four sequential axis clamps
(each clamp negates the velocity component current at that point). -/
def rectTick (p : Particle ℚ) (bx byc bw bh : ℚ) : Particle ℚ :=
  let x1 := p.x + p.vx
  let y1 := p.y + p.vy
  let x2 := if x1 = 0 ∧ y1 = 0 then bx + bw / 2 else x1
  let y2 := if x1 = 0 ∧ y1 = 0 then byc + bh / 2 else y1
  let xl := clampLow x2 p.vx (bx + p.radius)
  let xh := clampHigh xl.1 xl.2 (bx + bw - p.radius)
  let yl := clampLow y2 p.vy (byc + p.radius)
  let yh := clampHigh yl.1 yl.2 (byc + bh - p.radius)
  { p with x := xh.1, y := yh.1, vx := xh.2, vy := yh.2 }

/-- `rectTick` iterated `n` times. -/
def rectIter (p : Particle ℚ) (bx byc bw bh : ℚ) : ℕ → Particle ℚ
  | 0 => p
  | n + 1 => rectTick (rectIter p bx byc bw bh n) bx byc bw bh

/-- One frame of the liquid-level smoothing
(`current + (target - current) * 0.05`, drawScene). -/
def fillStep (target current : ℚ) : ℚ :=
  current + (target - current) * (5 / 100)

/-- `currentFill target n`: the animated fill level after `n` frames
starting from `0`. -/
def currentFill (target : ℚ) : ℕ → ℚ
  | 0 => 0
  | n + 1 => fillStep target (currentFill target n)

/-- A vessel's last-computed screen bounds (`containerBounds` entries). -/
structure Bounds where
  id : ℕ
  x : ℚ
  y : ℚ
  w : ℚ
  h : ℚ
deriving DecidableEq, Repr

/-- The pointer hit-tester (`handleClick`): every vessel whose bounds
inflated by 10px horizontally and 40px vertically contain the point
fires a selection, in bounds order. -/
def handleClick (boundsList : List Bounds) (x y : ℚ) : List ℕ :=
  (boundsList.filter (fun b =>
    decide (b.x - 10 ≤ x ∧ x ≤ b.x + b.w + 10 ∧
            b.y - 40 ≤ y ∧ y ≤ b.y + b.h + 40))).map (fun b => b.id)

/-- The three-vessel bounds list of the hit-test scenario. -/
def threeBounds : List Bounds :=
  [{ id := 1, x := 50, y := 100, w := 140, h := 140 },
   { id := 2, x := 250, y := 100, w := 140, h := 140 },
   { id := 3, x := 450, y := 100, w := 140, h := 140 }]

/-- One freshly spawned particle, from four consecutive `Math.random()`
draws: position (0,0), `vx = (r1 - 0.5) * 3`, `vy = (r2 - 0.5) * 3`,
`radius = 4 + r3 * 4`, color indexed by `floor(r4 * 4)`. -/
def mkParticle (r1 r2 r3 r4 : ℚ) : Particle ℚ :=
  { x := 0
    y := 0
    vx := (r1 - 1 / 2) * 3
    vy := (r2 - 1 / 2) * 3
    radius := 4 + r3 * 4
    color := gasParticles.getD (Int.toNat ⌊r4 * 4⌋) "" }

/-- The 40-particle spawn loop, fed by a stream of random draws
(particle `i` consumes draws `4i .. 4i+3`). -/
def spawnParticles (rand : ℕ → ℚ) : List (Particle ℚ) :=
  (List.range 40).map (fun i =>
    mkParticle (rand (4 * i)) (rand (4 * i + 1)) (rand (4 * i + 2)) (rand (4 * i + 3)))

/-- Per-slot body of the descriptor-change effect: a GAS slot keeps its
batch unless it is empty (then 40 particles are spawned); every other
state clears the batch. -/
def effectSlot (matter : MatterState) (old : List (Particle ℚ)) (rand : ℕ → ℚ) :
    List (Particle ℚ) :=
  match matter with
  | MatterState.GAS => if old.length = 0 then spawnParticles rand else old
  | _ => []

/-- The simulation state store (`simStateRef`), bounds omitted: target
fill levels, animated fill levels, per-slot particle batches. -/
structure SimState where
  waterLevels : List ℚ
  currentWaterLevels : List ℚ
  particles : List (List (Particle ℚ))
deriving Repr

/-- The descriptor-change effect (the `useEffect` keyed on `containers`):
per index it rewrites the target fill (0.7 for LIQUID, else 0) and
applies `effectSlot` to the particle batch; `currentWaterLevels` is
never touched. -/
def descriptorEffect (containers : List MatterState) (s : SimState) (rand : ℕ → ℚ) :
    SimState :=
  { waterLevels := containers.map (fun c => if c = MatterState.LIQUID then 7 / 10 else 0)
    currentWaterLevels := s.currentWaterLevels
    particles := List.zipWith (fun c old => effectSlot c old rand) containers s.particles }

/-- The CIRCLE-boundary bounce applied to the post-integration position
`(x2, y2)`: center `(bx, byc)`, confinement radius `bw`.  Faithful to
the source, including the second velocity line reading the already
updated `vx`. -/
noncomputable def circleBounce (p : Particle ℝ) (x2 y2 bx byc bw : ℝ) : Particle ℝ :=
  let dx := x2 - bx
  let dy := y2 - byc
  let dist := Real.sqrt (dx * dx + dy * dy)
  if dist > bw - p.radius then
    let nx := dx / dist
    let ny := dy / dist
    let vx1 := p.vx - 2 * (p.vx * nx + p.vy * ny) * nx
    let vy1 := p.vy - 2 * (vx1 * nx + p.vy * ny) * ny
    { p with
      x := bx + nx * (bw - p.radius - 1)
      y := byc + ny * (bw - p.radius - 1)
      vx := vx1
      vy := vy1 }
  else
    { p with x := x2, y := y2 }

/-- One tick of `updateParticles` for one particle in a CIRCLE
confinement: Euler integration, origin-sentinel check (snap to the
center), then the circular boundary bounce. -/
noncomputable def circleTick (p : Particle ℝ) (bx byc bw : ℝ) : Particle ℝ :=
  let x1 := p.x + p.vx
  let y1 := p.y + p.vy
  if x1 = 0 ∧ y1 = 0 then
    circleBounce p bx byc bx byc bw
  else
    circleBounce p x1 y1 bx byc bw

/-- `circleTick` iterated `n` times. -/
noncomputable def circleIter (p : Particle ℝ) (bx byc bw : ℝ) : ℕ → Particle ℝ
  | 0 => p
  | n + 1 => circleTick (circleIter p bx byc bw n) bx byc bw

/-- Euclidean distance of `(x, y)` from `(cx, cy)`. -/
noncomputable def distTo (x y cx cy : ℝ) : ℝ :=
  Real.sqrt ((x - cx) * (x - cx) + (y - cy) * (y - cy))

/-- JavaScript `Math.sqrt`: `none` models the NaN produced on negative
input. -/
noncomputable def jsSqrt (x : ℝ) : Option ℝ :=
  if x < 0 then none else some (Real.sqrt x)

/-- Canvas commands issued by the bowl liquid renderer. -/
inductive DrawCmd
  | clipCircle (cx cy r : ℝ)
  | fillRect (x y w h : ℝ)
  | ellipse (cx cy rx ry : ℝ)

/-- The liquid branch of `drawSphere`: clip to the bowl circle, fill the
water rectangle, then draw the surface ellipse only when
`sqrt(r*r - d*d)` is a real number greater than 0 (the
`!isNaN(surfaceR) && surfaceR > 0` guard). -/
noncomputable def sphereLiquidDraws (x w cx cy r waterLevel : ℝ) : List DrawCmd :=
  let lh := (2 * r) * waterLevel
  let wy := (cy + r) - lh
  let distFromCenter := |cy - wy|
  let base := [DrawCmd.clipCircle cx cy r, DrawCmd.fillRect x wy w lh]
  match jsSqrt (r * r - distFromCenter * distFromCenter) with
  | none => base
  | some surfaceR =>
      if surfaceR > 0 then
        base ++ [DrawCmd.ellipse cx wy surfaceR (surfaceR * (3 / 10))]
      else base


/-! ## Helper lemmas -/

/-- A low-wall clamp never leaves the coordinate below the wall. -/
theorem clampLow_fst_ge (x v lo : ℚ) : lo ≤ (clampLow x v lo).1 := by
  unfold clampLow
  split_ifs with hc
  · simp
  · simpa using le_of_not_lt hc

/-- A high-wall clamp never leaves the coordinate above the wall. -/
theorem clampHigh_fst_le (x v hi : ℚ) : (clampHigh x v hi).1 ≤ hi := by
  unfold clampHigh
  split_ifs with hc
  · simp
  · simpa using le_of_not_lt hc

/-- A high-wall clamp keeps any lower bound that also bounds the wall. -/
theorem clampHigh_fst_ge (x v hi lo : ℚ) (h1 : lo ≤ x) (h2 : lo ≤ hi) :
    lo ≤ (clampHigh x v hi).1 := by
  unfold clampHigh
  split_ifs with hc
  · simpa using h2
  · simpa using h1

/-- A RECT tick never changes the particle radius. -/
theorem rectTick_radius (p : Particle ℚ) (bx byc bw bh : ℚ) :
    (rectTick p bx byc bw bh).radius = p.radius := rfl

/-- Iterated RECT ticks never change the particle radius. -/
theorem rectIter_radius (p : Particle ℚ) (bx byc bw bh : ℚ) (n : ℕ) :
    (rectIter p bx byc bw bh n).radius = p.radius := by
  induction n with
  | zero => rfl
  | succ n ih => rw [rectIter, rectTick_radius, ih]

/-- A single RECT tick lands the particle center inside the shrunken box,
whatever the incoming state, provided the particle fits the box. -/
theorem rectTick_mem (q : Particle ℚ) (bx byc bw bh : ℚ)
    (hw : 2 * q.radius ≤ bw) (hh : 2 * q.radius ≤ bh) :
    bx + q.radius ≤ (rectTick q bx byc bw bh).x ∧
    (rectTick q bx byc bw bh).x ≤ bx + bw - q.radius ∧
    byc + q.radius ≤ (rectTick q bx byc bw bh).y ∧
    (rectTick q bx byc bw bh).y ≤ byc + bh - q.radius := by
  refine ⟨?_, ?_, ?_, ?_⟩ <;> simp only [rectTick]
  · exact clampHigh_fst_ge _ _ _ _ (clampLow_fst_ge _ _ _) (by linarith)
  · exact clampHigh_fst_le _ _ _
  · exact clampHigh_fst_ge _ _ _ _ (clampLow_fst_ge _ _ _) (by linarith)
  · exact clampHigh_fst_le _ _ _

/-- Closed form of the fill smoothing error: the distance to the target
shrinks by the factor 19/20 every frame. -/
theorem currentFill_err (T : ℚ) (n : ℕ) : T - currentFill T n = T * (19 / 20) ^ n := by
  induction n with
  | zero => simp [currentFill]
  | succ n ih =>
      have h : T - currentFill T (n + 1) = (T - currentFill T n) * (19 / 20) := by
        simp only [currentFill, fillStep]
        ring
      rw [h, ih, pow_succ]
      ring

/-- The spawn loop always produces exactly 40 particles. -/
theorem spawnParticles_length (rand : ℕ → ℚ) : (spawnParticles rand).length = 40 := by
  simp [spawnParticles]

/-- A CIRCLE bounce never changes the particle radius. -/
theorem circleBounce_radius (p : Particle ℝ) (x2 y2 bx byc bw : ℝ) :
    (circleBounce p x2 y2 bx byc bw).radius = p.radius := by
  simp only [circleBounce]
  split_ifs <;> rfl

/-- After a CIRCLE bounce the particle center is within
`bw - radius + 1` of the confinement center, whatever the
post-integration position was. -/
theorem circleBounce_dist (p : Particle ℝ) (x2 y2 bx byc bw : ℝ) (h : p.radius < bw) :
    distTo (circleBounce p x2 y2 bx byc bw).x (circleBounce p x2 y2 bx byc bw).y bx byc
      ≤ bw - p.radius + 1 := by
  have hrw : 0 < bw - p.radius := by linarith
  have hS : (0 : ℝ) ≤ (x2 - bx) * (x2 - bx) + (y2 - byc) * (y2 - byc) :=
    add_nonneg (mul_self_nonneg _) (mul_self_nonneg _)
  by_cases hb : Real.sqrt ((x2 - bx) * (x2 - bx) + (y2 - byc) * (y2 - byc)) > bw - p.radius
  · have hdpos : 0 < Real.sqrt ((x2 - bx) * (x2 - bx) + (y2 - byc) * (y2 - byc)) :=
      lt_trans hrw hb
    have hSpos : (0 : ℝ) < (x2 - bx) * (x2 - bx) + (y2 - byc) * (y2 - byc) :=
      Real.sqrt_pos.mp hdpos
    have hsq : Real.sqrt ((x2 - bx) * (x2 - bx) + (y2 - byc) * (y2 - byc)) *
        Real.sqrt ((x2 - bx) * (x2 - bx) + (y2 - byc) * (y2 - byc)) =
        (x2 - bx) * (x2 - bx) + (y2 - byc) * (y2 - byc) := Real.mul_self_sqrt hS
    simp only [circleBounce, if_pos hb, distTo]
    have harg :
        (bx + (x2 - bx) / Real.sqrt ((x2 - bx) * (x2 - bx) + (y2 - byc) * (y2 - byc)) *
            (bw - p.radius - 1) - bx) *
          (bx + (x2 - bx) / Real.sqrt ((x2 - bx) * (x2 - bx) + (y2 - byc) * (y2 - byc)) *
            (bw - p.radius - 1) - bx) +
        (byc + (y2 - byc) / Real.sqrt ((x2 - bx) * (x2 - bx) + (y2 - byc) * (y2 - byc)) *
            (bw - p.radius - 1) - byc) *
          (byc + (y2 - byc) / Real.sqrt ((x2 - bx) * (x2 - bx) + (y2 - byc) * (y2 - byc)) *
            (bw - p.radius - 1) - byc) =
        (bw - p.radius - 1) * (bw - p.radius - 1) := by
      field_simp
      nlinarith [hsq]
    rw [harg, Real.sqrt_mul_self_eq_abs, abs_le]
    constructor <;> linarith
  · simp only [circleBounce, if_neg hb, distTo]
    push_neg at hb
    linarith

/-- After a CIRCLE tick the particle center is within
`bw - radius + 1` of the confinement center. -/
theorem circleTick_dist (p : Particle ℝ) (bx byc bw : ℝ) (h : p.radius < bw) :
    distTo (circleTick p bx byc bw).x (circleTick p bx byc bw).y bx byc
      ≤ bw - p.radius + 1 := by
  simp only [circleTick]
  split_ifs with h1
  · exact circleBounce_dist p bx byc bx byc bw h
  · exact circleBounce_dist p _ _ bx byc bw h

/-- A CIRCLE tick never changes the particle radius. -/
theorem circleTick_radius (p : Particle ℝ) (bx byc bw : ℝ) :
    (circleTick p bx byc bw).radius = p.radius := by
  simp only [circleTick]
  split_ifs <;> exact circleBounce_radius _ _ _ _ _ _

/-- Iterated CIRCLE ticks never change the particle radius. -/
theorem circleIter_radius (p : Particle ℝ) (bx byc bw : ℝ) (n : ℕ) :
    (circleIter p bx byc bw n).radius = p.radius := by
  induction n with
  | zero => rfl
  | succ n ih => rw [circleIter, circleTick_radius, ih]

/-! ## Claim theorems -/

/-- Claim C1 (refuted as stated, code bug): a CIRCLE-boundary reflection
does not preserve speed.  The particle at (-2,4) with velocity (5,0)
integrates to (3,4) in the disc of radius 8 centered at the origin
(particle radius 4, so dist 5 exceeds 8 - 4 and triggers the bounce);
because the second velocity assignment reads the already-updated `vx`,
the outgoing velocity is (7/5, -168/125) with squared speed 58849/15625,
while the incoming squared speed was 25.  RECT reflections, which merely
negate one component, do preserve speed. -/
theorem circle_reflection_changes_speed :
    (circleTick ⟨-2, 4, 5, 0, 4, "#ef4444"⟩ 0 0 8).vx ^ 2 +
      (circleTick ⟨-2, 4, 5, 0, 4, "#ef4444"⟩ 0 0 8).vy ^ 2 = 58849 / 15625 ∧
    (Particle.vx (⟨-2, 4, 5, 0, 4, "#ef4444"⟩ : Particle ℝ)) ^ 2 +
      (Particle.vy (⟨-2, 4, 5, 0, 4, "#ef4444"⟩ : Particle ℝ)) ^ 2 = 25 ∧
    (58849 / 15625 : ℝ) ≠ 25 := by
  refine ⟨?_, by norm_num, by norm_num⟩
  have hinit : ¬(((-2 : ℝ) + 5 = 0) ∧ ((4 : ℝ) + 0 = 0)) := by norm_num
  simp only [circleTick]
  rw [if_neg hinit]
  simp only [circleBounce]
  rw [show ((-2 : ℝ) + 5 - 0) * (-2 + 5 - 0) + (4 + 0 - 0) * (4 + 0 - 0) = 5 * 5 by norm_num]
  rw [Real.sqrt_mul_self (by norm_num : (0 : ℝ) ≤ 5)]
  rw [if_pos (by norm_num : (5 : ℝ) > 8 - 4)]
  norm_num

/-- Claim C2 fails as stated: with target 1, after one frame the error is
19/20, not below 0.05^1 = 1/20; and after 60 frames the error is
(19/20)^60 which still exceeds 1e-2, although the target 1 is at least
0.1. -/
theorem fill_convergence_claim_counterexample :
    ¬(|currentFill 1 1 - 1| < (5 / 100 : ℚ) ^ 1) ∧
    ¬(|currentFill 1 60 - 1| ≤ 1 / 100) := by
  have h1 : currentFill 1 1 = 1 / 20 := by norm_num [currentFill, fillStep]
  have h60 : (1 : ℚ) - currentFill 1 60 = (19 / 20) ^ 60 := by
    simpa using currentFill_err 1 60
  constructor
  · rw [h1]
    have habs : |(1 : ℚ) / 20 - 1| = 19 / 20 := by
      rw [abs_sub_comm, abs_of_nonneg (by norm_num : (0 : ℚ) ≤ 1 - 1 / 20)]
      norm_num
    rw [habs]
    norm_num
  · have habs : |currentFill 1 60 - 1| = (19 / 20) ^ 60 := by
      rw [abs_sub_comm, h60]
      exact abs_of_nonneg (by positivity)
    rw [habs]
    norm_num

/-- Claim C2 (amended): for every target `T` in [0,1], starting from 0
the smoothed fill is monotonically non-decreasing, the error after `n`
frames is at most `(19/20)^n` (the true geometric ratio is 0.95, not
0.05), and after 60 frames the fill is within 5e-2 of the target. -/
theorem fill_convergence_amended (T : ℚ) (n : ℕ) (h0 : 0 ≤ T) (h1 : T ≤ 1) :
    currentFill T n ≤ currentFill T (n + 1) ∧
    |currentFill T n - T| ≤ (19 / 20) ^ n ∧
    |currentFill T 60 - T| ≤ 5 / 100 := by
  have key : ∀ m : ℕ, |currentFill T m - T| = T * (19 / 20) ^ m := by
    intro m
    rw [abs_sub_comm, currentFill_err T m]
    exact abs_of_nonneg (by positivity)
  refine ⟨?_, ?_, ?_⟩
  · have hd : currentFill T (n + 1) - currentFill T n =
        (T - currentFill T n) * (5 / 100) := by
      simp only [currentFill, fillStep]
      ring
    have herr := currentFill_err T n
    nlinarith [pow_nonneg (by norm_num : (0 : ℚ) ≤ 19 / 20) n]
  · rw [key n]
    calc T * (19 / 20) ^ n ≤ 1 * (19 / 20) ^ n :=
          mul_le_mul_of_nonneg_right h1 (by positivity)
      _ = (19 / 20) ^ n := one_mul _
  · rw [key 60]
    have hp : ((19 : ℚ) / 20) ^ 60 ≤ 5 / 100 := by norm_num
    nlinarith [pow_nonneg (by norm_num : (0 : ℚ) ≤ 19 / 20) 60]

/-- Claim C2 witness: the amended convergence statement instantiated at
target 1/2 and frame 3. -/
theorem fill_convergence_amended_witness :
    currentFill (1 / 2) 3 ≤ currentFill (1 / 2) 4 ∧
    |currentFill (1 / 2) 3 - 1 / 2| ≤ (19 / 20) ^ 3 ∧
    |currentFill (1 / 2) 60 - 1 / 2| ≤ 5 / 100 :=
  fill_convergence_amended (1 / 2) 3 (by norm_num) (by norm_num)

/-- Claim C3 fails as stated: a click at (10,170) resolves to no vessel,
not to vessel 1 — the 10px horizontal slack of vessel 1's left edge
(x = 50) reaches only down to x = 40. -/
theorem hit_test_slack_counterexample :
    handleClick threeBounds 10 170 = [] ∧ handleClick threeBounds 10 170 ≠ [1] := by
  have h : handleClick threeBounds 10 170 = [] := by
    norm_num [handleClick, threeBounds, List.filter]
  exact ⟨h, by rw [h]; simp⟩

/-- Claim C3 (amended): with the three scenario bounds, a click at
(120,170) resolves to vessel 1 only, a click at (45,170) — inside the
10px slack — resolves to vessel 1, and clicks at (10,170) and (700,170)
resolve to no vessel. -/
theorem hit_test_scenario_amended :
    handleClick threeBounds 120 170 = [1] ∧
    handleClick threeBounds 45 170 = [1] ∧
    handleClick threeBounds 10 170 = [] ∧
    handleClick threeBounds 700 170 = [] := by
  refine ⟨?_, ?_, ?_, ?_⟩ <;> norm_num [handleClick, threeBounds, List.filter]

/-- Claim C4 (refuted as stated, code bug): the origin-sentinel check
runs after integration, so a particle at (0,0) at the start of a tick
with velocity (1,0) is never snapped to the confinement center; instead
its post-integration position (1,0) is clamped to the rectangle's
top-left corner (55,105), not the center (120,170). -/
theorem origin_sentinel_not_snapped :
    rectTick { x := 0, y := 0, vx := 1, vy := 0, radius := 5, color := "c" } 50 100 140 140 =
      { x := 55, y := 105, vx := -1, vy := 0, radius := 5, color := "c" } ∧
    (55 : ℚ) ≠ 50 + 140 / 2 ∧ (105 : ℚ) ≠ 100 + 140 / 2 := by
  refine ⟨?_, by norm_num, by norm_num⟩
  norm_num [rectTick, clampLow, clampHigh]

/-- Claim C5 fails as stated: after a descriptor-list change, a slot
that stays GAS keeps its particle batch (the particle at (7,9) is not
re-zeroed) and the animated fill level 3/10 is untouched — the effect
does not perform a full reset. -/
theorem descriptor_effect_reset_counterexample :
    (descriptorEffect [MatterState.GAS]
        { waterLevels := [0], currentWaterLevels := [3 / 10],
          particles := [[{ x := 7, y := 9, vx := 1, vy := 1, radius := 5, color := "#ef4444" }]] }
        (fun _ => 0)).currentWaterLevels = [3 / 10] ∧
    (descriptorEffect [MatterState.GAS]
        { waterLevels := [0], currentWaterLevels := [3 / 10],
          particles := [[{ x := 7, y := 9, vx := 1, vy := 1, radius := 5, color := "#ef4444" }]] }
        (fun _ => 0)).particles =
      [[{ x := 7, y := 9, vx := 1, vy := 1, radius := 5, color := "#ef4444" }]] ∧
    (3 / 10 : ℚ) ≠ 0 ∧ (7 : ℚ) ≠ 0 :=
  ⟨rfl, rfl, by norm_num, by norm_num⟩

/-- Claim C5 (amended): a descriptor-list identity change rewrites every
slot's target fill (0.7 for LIQUID, else 0), clears the batch of every
non-GAS slot, spawns exactly 40 particles into a GAS slot whose batch is
empty, keeps a GAS slot's existing batch unchanged, and never touches
the animated fill levels. -/
theorem descriptor_effect_amended (containers : List MatterState) (s : SimState)
    (rand : ℕ → ℚ) (i : ℕ) (hi : i < containers.length)
    (hlen : s.particles.length = containers.length) :
    (descriptorEffect containers s rand).currentWaterLevels = s.currentWaterLevels ∧
    (descriptorEffect containers s rand).waterLevels =
      containers.map (fun c => if c = MatterState.LIQUID then 7 / 10 else 0) ∧
    (containers.getD i MatterState.EMPTY ≠ MatterState.GAS →
      (descriptorEffect containers s rand).particles.getD i [] = []) ∧
    (containers.getD i MatterState.EMPTY = MatterState.GAS →
      s.particles.getD i [] ≠ [] →
      (descriptorEffect containers s rand).particles.getD i [] = s.particles.getD i []) ∧
    (containers.getD i MatterState.EMPTY = MatterState.GAS →
      s.particles.getD i [] = [] →
      ((descriptorEffect containers s rand).particles.getD i []).length = 40) := by
  have hip : i < s.particles.length := by omega
  have hiz : i < ((descriptorEffect containers s rand).particles).length := by
    simp only [descriptorEffect, List.length_zipWith]
    omega
  have hslot : (descriptorEffect containers s rand).particles.getD i [] =
      effectSlot (containers.getD i MatterState.EMPTY) (s.particles.getD i []) rand := by
    rw [List.getD_eq_getElem _ _ hiz, List.getD_eq_getElem _ _ hi, List.getD_eq_getElem _ _ hip]
    simp only [descriptorEffect]
    rw [List.getElem_zipWith]
  refine ⟨rfl, rfl, ?_, ?_, ?_⟩
  · intro h
    rw [hslot]
    cases hc : containers.getD i MatterState.EMPTY <;> first | rfl | exact absurd hc h
  · intro hgas hne
    rw [hslot, hgas]
    simp only [effectSlot, List.length_eq_zero]
    rw [if_neg hne]
  · intro hgas hemp
    rw [hslot, hgas, hemp]
    simpa [effectSlot] using spawnParticles_length rand

/-- Claim C5 witness: the amended effect behaviour at a concrete
two-slot state (GAS with an empty batch, LIQUID), slot 0. -/
theorem descriptor_effect_amended_witness :
    (descriptorEffect [MatterState.GAS, MatterState.LIQUID]
        { waterLevels := [0, 0], currentWaterLevels := [1 / 4, 1 / 4],
          particles := [[], []] } (fun _ => 0)).currentWaterLevels = [1 / 4, 1 / 4] ∧
    (descriptorEffect [MatterState.GAS, MatterState.LIQUID]
        { waterLevels := [0, 0], currentWaterLevels := [1 / 4, 1 / 4],
          particles := [[], []] } (fun _ => 0)).waterLevels =
      [MatterState.GAS, MatterState.LIQUID].map
        (fun c => if c = MatterState.LIQUID then 7 / 10 else 0) ∧
    ([MatterState.GAS, MatterState.LIQUID].getD 0 MatterState.EMPTY ≠ MatterState.GAS →
      (descriptorEffect [MatterState.GAS, MatterState.LIQUID]
          { waterLevels := [0, 0], currentWaterLevels := [1 / 4, 1 / 4],
            particles := [[], []] } (fun _ => 0)).particles.getD 0 [] = []) ∧
    ([MatterState.GAS, MatterState.LIQUID].getD 0 MatterState.EMPTY = MatterState.GAS →
      (({ waterLevels := [0, 0], currentWaterLevels := [1 / 4, 1 / 4],
          particles := [[], []] } : SimState)).particles.getD 0 [] ≠ [] →
      (descriptorEffect [MatterState.GAS, MatterState.LIQUID]
          { waterLevels := [0, 0], currentWaterLevels := [1 / 4, 1 / 4],
            particles := [[], []] } (fun _ => 0)).particles.getD 0 [] =
        (({ waterLevels := [0, 0], currentWaterLevels := [1 / 4, 1 / 4],
            particles := [[], []] } : SimState)).particles.getD 0 []) ∧
    ([MatterState.GAS, MatterState.LIQUID].getD 0 MatterState.EMPTY = MatterState.GAS →
      (({ waterLevels := [0, 0], currentWaterLevels := [1 / 4, 1 / 4],
          particles := [[], []] } : SimState)).particles.getD 0 [] = [] →
      ((descriptorEffect [MatterState.GAS, MatterState.LIQUID]
          { waterLevels := [0, 0], currentWaterLevels := [1 / 4, 1 / 4],
            particles := [[], []] } (fun _ => 0)).particles.getD 0 []).length = 40) :=
  descriptor_effect_amended [MatterState.GAS, MatterState.LIQUID]
    { waterLevels := [0, 0], currentWaterLevels := [1 / 4, 1 / 4], particles := [[], []] }
    (fun _ => 0) 0 (by norm_num) (by norm_num)

/-- Claim C6 (confirmed): in a RECT confinement of width at least `2r`
and height at least `2r`, after any `N ≥ 1` ticks the particle center
lies in the box shrunken by the particle radius. -/
theorem rect_particle_containment (p : Particle ℚ) (bx byc bw bh : ℚ) (N : ℕ)
    (hw : 2 * p.radius ≤ bw) (hh : 2 * p.radius ≤ bh) (hN : 1 ≤ N) :
    bx + p.radius ≤ (rectIter p bx byc bw bh N).x ∧
    (rectIter p bx byc bw bh N).x ≤ bx + bw - p.radius ∧
    byc + p.radius ≤ (rectIter p bx byc bw bh N).y ∧
    (rectIter p bx byc bw bh N).y ≤ byc + bh - p.radius := by
  obtain ⟨M, rfl⟩ : ∃ M, N = M + 1 := ⟨N - 1, by omega⟩
  have hrad := rectIter_radius p bx byc bw bh M
  have h := rectTick_mem (rectIter p bx byc bw bh M) bx byc bw bh
    (by rw [hrad]; exact hw) (by rw [hrad]; exact hh)
  rw [hrad] at h
  exact h

/-- Claim C6 witness: containment after one tick of a concrete particle
in the rectangle with origin (50,100) and size 140 by 140. -/
theorem rect_particle_containment_witness :
    50 + Particle.radius ({ x := 0, y := 0, vx := 1, vy := 0, radius := 5, color := "c" } : Particle ℚ) ≤
      (rectIter { x := 0, y := 0, vx := 1, vy := 0, radius := 5, color := "c" } 50 100 140 140 1).x ∧
    (rectIter { x := 0, y := 0, vx := 1, vy := 0, radius := 5, color := "c" } 50 100 140 140 1).x ≤
      50 + 140 - Particle.radius ({ x := 0, y := 0, vx := 1, vy := 0, radius := 5, color := "c" } : Particle ℚ) ∧
    100 + Particle.radius ({ x := 0, y := 0, vx := 1, vy := 0, radius := 5, color := "c" } : Particle ℚ) ≤
      (rectIter { x := 0, y := 0, vx := 1, vy := 0, radius := 5, color := "c" } 50 100 140 140 1).y ∧
    (rectIter { x := 0, y := 0, vx := 1, vy := 0, radius := 5, color := "c" } 50 100 140 140 1).y ≤
      100 + 140 - Particle.radius ({ x := 0, y := 0, vx := 1, vy := 0, radius := 5, color := "c" } : Particle ℚ) :=
  rect_particle_containment { x := 0, y := 0, vx := 1, vy := 0, radius := 5, color := "c" }
    50 100 140 140 1 (by norm_num) (by norm_num) (by norm_num)

/-- Claim C7 (confirmed): in a CIRCLE confinement of radius `R`
exceeding the particle radius `r`, after any `N ≥ 1` ticks the particle
center is within `R - r + 1` of the confinement center (the code clamps
escapers one unit inside the boundary, so the slack `1` covers every
admissible `R`; for `R ≥ r + 1` the distance is in fact at most `R - r`). -/
theorem circle_particle_containment (p : Particle ℝ) (bx byc bw : ℝ) (N : ℕ)
    (h : p.radius < bw) (hN : 1 ≤ N) :
    distTo (circleIter p bx byc bw N).x (circleIter p bx byc bw N).y bx byc
      ≤ bw - p.radius + 1 := by
  obtain ⟨M, rfl⟩ : ∃ M, N = M + 1 := ⟨N - 1, by omega⟩
  have hrad := circleIter_radius p bx byc bw M
  have hd := circleTick_dist (circleIter p bx byc bw M) bx byc bw (by rw [hrad]; exact h)
  rw [hrad] at hd
  exact hd

/-- Claim C7 witness: containment after one tick of a concrete particle
in the disc of radius 60 centered at (100,100). -/
theorem circle_particle_containment_witness :
    distTo (circleIter { x := 0, y := 0, vx := 0, vy := 0, radius := 4, color := "c" } 100 100 60 1).x
      (circleIter { x := 0, y := 0, vx := 0, vy := 0, radius := 4, color := "c" } 100 100 60 1).y 100 100
      ≤ 60 - Particle.radius ({ x := 0, y := 0, vx := 0, vy := 0, radius := 4, color := "c" } : Particle ℝ) + 1 :=
  circle_particle_containment { x := 0, y := 0, vx := 0, vy := 0, radius := 4, color := "c" }
    100 100 60 1 (by norm_num) (by norm_num)

/-- Claim C8 (confirmed): the descriptor-change effect clears the
particle batch of any slot whose matter state is not GAS, and populates
exactly 40 particles into a GAS slot whose batch is empty. -/
theorem gas_batch_transition (matter : MatterState) (old : List (Particle ℚ)) (rand : ℕ → ℚ) :
    (matter ≠ MatterState.GAS → effectSlot matter old rand = []) ∧
    (matter = MatterState.GAS → old = [] → (effectSlot matter old rand).length = 40) := by
  constructor
  · intro h
    cases matter <;> first | rfl | exact absurd rfl h
  · rintro rfl rfl
    simpa [effectSlot] using spawnParticles_length rand

/-- Claim C8 witness: a SOLID slot's batch is cleared; an empty GAS
slot's batch is populated with 40 particles. -/
theorem gas_batch_transition_witness :
    effectSlot MatterState.SOLID
      [{ x := 7, y := 9, vx := 1, vy := 1, radius := 5, color := "#ef4444" }] (fun _ => 0) = [] ∧
    (effectSlot MatterState.GAS [] (fun _ => 0)).length = 40 :=
  ⟨(gas_batch_transition MatterState.SOLID
      [{ x := 7, y := 9, vx := 1, vy := 1, radius := 5, color := "#ef4444" }] (fun _ => 0)).1
      (by simp),
   (gas_batch_transition MatterState.GAS [] (fun _ => 0)).2 rfl rfl⟩

/-- Claim C9 (confirmed): whenever the vertical distance from the bowl
center to the liquid-surface plane exceeds the (nonnegative) radius, the
radicand `r*r - d*d` is negative, `Math.sqrt` yields NaN, the guard
rejects it, and the frame consists of exactly the clip and water
rectangle commands — no surface ellipse and no crash. -/
theorem bowl_surface_guard (x w cx cy r waterLevel : ℝ) (h0 : 0 ≤ r)
    (hd : r < |cy - ((cy + r) - (2 * r) * waterLevel)|) :
    sphereLiquidDraws x w cx cy r waterLevel =
      [DrawCmd.clipCircle cx cy r,
       DrawCmd.fillRect x ((cy + r) - (2 * r) * waterLevel) w ((2 * r) * waterLevel)] := by
  have habs : (0 : ℝ) ≤ |cy - ((cy + r) - (2 * r) * waterLevel)| := abs_nonneg _
  have hneg : r * r - |cy - ((cy + r) - (2 * r) * waterLevel)| *
      |cy - ((cy + r) - (2 * r) * waterLevel)| < 0 := by nlinarith
  simp only [sphereLiquidDraws, jsSqrt]
  rw [if_pos hneg]

/-- Claim C9 witness: bowl center (0,0), radius 50, fill plane at
vertical distance 60 from the center — only the clip and water
rectangle are drawn. -/
theorem bowl_surface_guard_witness :
    sphereLiquidDraws 0 100 0 0 50 (11 / 10) =
      [DrawCmd.clipCircle 0 0 50,
       DrawCmd.fillRect 0 ((0 + 50) - (2 * 50) * (11 / 10)) 100 ((2 * 50) * (11 / 10))] := by
  have h : (50 : ℝ) < |(0 : ℝ) - ((0 + 50) - (2 * 50) * (11 / 10))| := by
    rw [show (0 : ℝ) - ((0 + 50) - (2 * 50) * (11 / 10)) = 60 by norm_num]
    rw [abs_of_nonneg (by norm_num : (0 : ℝ) ≤ 60)]
    norm_num
  exact bowl_surface_guard 0 100 0 0 50 (11 / 10) (by norm_num) h

/-- Claim C10 (confirmed): every spawned particle starts at position
(0,0), has velocity components in [-1.5, 1.5], radius in [4, 8), and a
color from the fixed four-token gas palette, provided every random draw
lies in [0,1) as `Math.random()` guarantees. -/
theorem spawn_particle_properties (rand : ℕ → ℚ) (hr : ∀ n, 0 ≤ rand n ∧ rand n < 1) :
    ∀ p ∈ spawnParticles rand,
      p.x = 0 ∧ p.y = 0 ∧
      -(3 / 2) ≤ p.vx ∧ p.vx ≤ 3 / 2 ∧ -(3 / 2) ≤ p.vy ∧ p.vy ≤ 3 / 2 ∧
      4 ≤ p.radius ∧ p.radius < 8 ∧ p.color ∈ gasParticles := by
  intro p hp
  simp only [spawnParticles, List.mem_map, List.mem_range] at hp
  obtain ⟨i, -, rfl⟩ := hp
  obtain ⟨h1a, h1b⟩ := hr (4 * i)
  obtain ⟨h2a, h2b⟩ := hr (4 * i + 1)
  obtain ⟨h3a, h3b⟩ := hr (4 * i + 2)
  obtain ⟨h4a, h4b⟩ := hr (4 * i + 3)
  refine ⟨rfl, rfl, by simp only [mkParticle]; linarith, by simp only [mkParticle]; linarith,
    by simp only [mkParticle]; linarith, by simp only [mkParticle]; linarith,
    by simp only [mkParticle]; linarith, by simp only [mkParticle]; linarith, ?_⟩
  simp only [mkParticle]
  have hfl : (0 : ℤ) ≤ ⌊rand (4 * i + 3) * 4⌋ := by
    apply Int.le_floor.mpr
    push_cast
    nlinarith
  have hfl4 : ⌊rand (4 * i + 3) * 4⌋ < 4 := by
    apply Int.floor_lt.mpr
    push_cast
    nlinarith
  have hk : Int.toNat ⌊rand (4 * i + 3) * 4⌋ < gasParticles.length := by
    simp only [gasParticles, List.length_cons, List.length_nil]
    omega
  rw [List.getD_eq_getElem _ _ hk]
  exact List.getElem_mem hk

/-- Claim C10 witness: the spawn properties instantiated at the constant
random stream 1/2, for the particle it produces. -/
theorem spawn_particle_properties_witness :
    (mkParticle (1 / 2) (1 / 2) (1 / 2) (1 / 2)).x = 0 ∧
    (mkParticle (1 / 2) (1 / 2) (1 / 2) (1 / 2)).y = 0 ∧
    -(3 / 2) ≤ (mkParticle (1 / 2) (1 / 2) (1 / 2) (1 / 2)).vx ∧
    (mkParticle (1 / 2) (1 / 2) (1 / 2) (1 / 2)).vx ≤ 3 / 2 ∧
    -(3 / 2) ≤ (mkParticle (1 / 2) (1 / 2) (1 / 2) (1 / 2)).vy ∧
    (mkParticle (1 / 2) (1 / 2) (1 / 2) (1 / 2)).vy ≤ 3 / 2 ∧
    4 ≤ (mkParticle (1 / 2) (1 / 2) (1 / 2) (1 / 2)).radius ∧
    (mkParticle (1 / 2) (1 / 2) (1 / 2) (1 / 2)).radius < 8 ∧
    (mkParticle (1 / 2) (1 / 2) (1 / 2) (1 / 2)).color ∈ gasParticles := by
  have hmem : mkParticle (1 / 2) (1 / 2) (1 / 2) (1 / 2) ∈ spawnParticles (fun _ => 1 / 2) := by
    simp only [spawnParticles]
    exact List.mem_map.mpr ⟨0, List.mem_range.mpr (by norm_num), rfl⟩
  exact spawn_particle_properties (fun _ => 1 / 2)
    (fun n => ⟨by norm_num, by norm_num⟩) (mkParticle (1 / 2) (1 / 2) (1 / 2) (1 / 2)) hmem

end StatesOfMatter
